import Mathlib

/-!
Verification of src/src/Fl_Image_Surface.cxx (FLTK image-surface module).

The development shallowly embeds the module's algorithms and state:
pixel buffers become functions from flat byte indices to byte values
(natural numbers; all source arithmetic is on uchar promoted to int, so
Nat arithmetic with truncating division is exact), in-place updates
become explicit state passing, and the platform collaborators that are
out of scope for the repository (drivers, the surface activation stack,
image resampling) are modelled from the specification where noted.
-/

/-! ## Pixel-level data model -/

/-- Pixel-array view of an Fl_RGB_Image as used by the pixel algorithms
of the source file: pixel size `data_w` x `data_h`, depth `d`, line
stride `ld` (0 means default), and the flat byte array. -/
structure RGBImageData where
  data_w : Nat
  data_h : Nat
  d : Nat
  ld : Nat
  array : Nat → Nat

/-- A single byte store into a flat buffer. -/
def writeByte (buf : Nat → Nat) (idx val : Nat) : Nat → Nat :=
  fun k => if k = idx then val else buf k

/-- Inner loop of Fl_Image_Surface_Driver::copy_with_mask: for column
j below the count, blend the three colour bytes at `rowBase + 3*j` of
the destination with the source, weighted by the alpha byte at
`alphaBase + j`, exactly in the source's statement order
(`*dst = ((*dst) * v + (*src) * u) / 255` three times). -/
def cwmInner (alphaArr src : Nat → Nat) (alphaBase rowBase : Nat) :
    Nat → (Nat → Nat) → (Nat → Nat)
  | 0, dst => dst
  | j + 1, dst =>
    let d1 := cwmInner alphaArr src alphaBase rowBase j dst
    let u := alphaArr (alphaBase + j)
    let v := 255 - u
    let b := rowBase + 3 * j
    let d2 := writeByte d1 b ((d1 b * v + src b * u) / 255)
    let d3 := writeByte d2 (b + 1) ((d2 (b + 1) * v + src (b + 1) * u) / 255)
    writeByte d3 (b + 2) ((d3 (b + 2) * v + src (b + 2) * u) / 255)

/-- Outer loop of copy_with_mask: row `i` reads the alpha row
`(bottom_to_top ? (h-i-1) : i) * w` of the mask and walks the
destination and source rows at byte offset `i * line_size`. -/
def cwmRows (alphaArr src : Nat → Nat) (w h line_size : Nat) (bottom_to_top : Bool) :
    Nat → (Nat → Nat) → (Nat → Nat)
  | 0, dst => dst
  | i + 1, dst =>
    let d1 := cwmRows alphaArr src w h line_size bottom_to_top i dst
    cwmInner alphaArr src ((if bottom_to_top then h - i - 1 else i) * w) (i * line_size) w d1

/-- Fl_Image_Surface_Driver::copy_with_mask (src/src/Fl_Image_Surface.cxx,
lines 94-114): blends `dib_dst` (background) and `dib_src` (foreground)
in place, weighted by the single-channel `mask`. -/
def copy_with_mask (mask : RGBImageData) (dib_dst dib_src : Nat → Nat)
    (line_size : Nat) (bottom_to_top : Bool) : Nat → Nat :=
  cwmRows mask.array dib_src mask.data_w mask.data_h line_size bottom_to_top mask.data_h dib_dst

/-- The mask with its rows in reverse order: row `i` of the result is
row `h - 1 - i` of the argument (same pixel size). Used to state the
row-order-flag property. -/
def RGBImageData.reverseRows (m : RGBImageData) : RGBImageData :=
  { m with array := fun k =>
      m.array ((m.data_h - 1 - k / m.data_w) * m.data_w + k % m.data_w) }

/-- Fl_Image_Surface_Driver::RGB3_to_RGB1 (src/src/Fl_Image_Surface.cxx,
lines 117-138), functional view: reduce a depth-3 image to a new
depth-1 image of pixel size `W` x `H`. The image-resampling
collaborator `rgb3->copy(W, H)` is out of scope for the repository and
is passed in as the `resample` argument; it is invoked exactly when the
source pixel size differs from `(W, H)`, as in the source. The row
stride is the source's `ld()` or `3 * W` when that is zero, and every
output byte is `(R + G + B) / 3` of the corresponding source pixel. -/
def RGB3_to_RGB1 (resample : RGBImageData → Nat → Nat → RGBImageData)
    (rgb3 : RGBImageData) (W H : Nat) : RGBImageData :=
  let src := if W = rgb3.data_w ∧ H = rgb3.data_h then rgb3 else resample rgb3 W H
  let ld := if src.ld = 0 then 3 * W else src.ld
  { data_w := W, data_h := H, d := 1, ld := 0,
    array := fun k =>
      if k < W * H then
        (src.array (k / W * ld + 3 * (k % W)) +
         src.array (k / W * ld + 3 * (k % W) + 1) +
         src.array (k / W * ld + 3 * (k % W) + 2)) / 3
      else 0 }

/-! ## Byte-addressed (heap) view of RGB3_to_RGB1

To settle the frame property (the caller's source buffer is never
written), the same source loop is also embedded at the level of a flat
address space: `heap : Nat → Nat` assigns a byte to every address, the
source pixels live at `srcBase`, the freshly allocated output at
`dstBase`, and a resampled temporary copy (when one is needed) is
materialized at `tmpBase`. -/

/-- Store a list of bytes at consecutive addresses starting at `base`. -/
def writeListAt (heap : Nat → Nat) (base : Nat) : List Nat → (Nat → Nat)
  | [] => heap
  | v :: rest => writeListAt (writeByte heap base v) (base + 1) rest

/-- Inner loop of RGB3_to_RGB1 over one row: output byte `dBase + j`
receives the truncated mean of the three source bytes at
`sBase + 3*j`. -/
def lumRow (heap : Nat → Nat) (sBase dBase : Nat) : Nat → (Nat → Nat)
  | 0 => heap
  | j + 1 =>
    let h1 := lumRow heap sBase dBase j
    writeByte h1 (dBase + j)
      ((h1 (sBase + 3 * j) + h1 (sBase + 3 * j + 1) + h1 (sBase + 3 * j + 2)) / 3)

/-- Outer loop of RGB3_to_RGB1: row `i` reads source bytes from
`sBase + i * ld` and writes output bytes at `dBase + i * W`. -/
def lumRows (heap : Nat → Nat) (sBase ld dBase W : Nat) : Nat → (Nat → Nat)
  | 0 => heap
  | i + 1 => lumRow (lumRows heap sBase ld dBase W i) (sBase + i * ld) (dBase + i * W) W

/-- Heap-level RGB3_to_RGB1 (src/src/Fl_Image_Surface.cxx, lines
117-138). When the requested size `(W, H)` equals the source pixel size
the loop reads directly from the caller's buffer at `srcBase`;
otherwise the resampled copy (byte list `tmp`, a fresh allocation at
`tmpBase`, its stride `tmpLd`) is materialized first and the loop reads
from it. In both cases all loop writes target the fresh output
allocation at `dstBase`. -/
def RGB3_to_RGB1_mem (heap : Nat → Nat) (srcBase srcW srcH srcLd : Nat)
    (tmp : List Nat) (tmpBase tmpLd dstBase W H : Nat) : Nat → Nat :=
  if W = srcW ∧ H = srcH then
    lumRows heap srcBase (if srcLd = 0 then 3 * W else srcLd) dstBase W H
  else
    lumRows (writeListAt heap tmpBase tmp) tmpBase
      (if tmpLd = 0 then 3 * W else tmpLd) dstBase W H

/-! ## Surface lifecycle model

The platform image-surface drivers, the global surface-activation
stack (Fl_Surface_Device) and the Fl_Image / Fl_Shared_Image helpers
are code of this repository that is not under src/; they are modelled
from the spec below, at the granularity the claims need. The methods of
Fl_Image_Surface and the fl_XXX_offscreen functions themselves are
translated from src/src/Fl_Image_Surface.cxx. -/

/-- Modelled from the spec: the platform image-surface driver state.
`width` and `height` are the surface's logical size in FLTK units (the
constructor arguments, which the spec's Construct operation takes as
logicalW/logicalH, and which printable_rect reports: the src doc of
highres_image calls the printable_rect values a size in FLTK units).
`pixW`/`pixH` are the physical pixel dimensions derived from the
logical size and the global scale factor, `offscreen` is the platform
pixel-buffer handle (0 is the null handle), `content` abstracts the
drawn pixel content of the buffer, and `borrowed` records that the
buffer was supplied by the caller. -/
structure Fl_Image_Surface_Driver where
  width : Nat
  height : Nat
  pixW : Nat
  pixH : Nat
  offscreen : Nat
  content : Nat
  borrowed : Bool
deriving DecidableEq

/-- Modelled from the spec: the external collaborators of the surface.
`sc` applies the current global scale factor (physical pixels from
logical units), `draw` is the platform primitive that draws an image
with pixel content `pix` at position `(x, y)` over a buffer holding
`old`, and `nextOff` is the allocator counter producing fresh non-null
pixel-buffer handles. -/
structure Env where
  sc : Nat → Nat
  draw : Nat → Nat → Nat → Nat → Nat
  nextOff : Nat

/-- Modelled from the spec: the SurfaceActivationStack.  `current` is
the device that drawing operations target (0 stands for the on-screen
display device) and `prevStack` holds the devices saved by
push_current, restored by pop_current. -/
structure DeviceCtx where
  current : Nat
  prevStack : List Nat
deriving DecidableEq

/-- Modelled from the spec: Fl_Surface_Device::push_current on a
device handle: saves the current device and makes `dev` current. -/
def push_current_dev (dc : DeviceCtx) (dev : Nat) : DeviceCtx :=
  { current := dev, prevStack := dc.current :: dc.prevStack }

/-- Modelled from the spec: Fl_Surface_Device::pop_current restores
the most recently saved device (popping an empty stack is a caller
contract violation; it is modelled as a no-op). -/
def pop_current (dc : DeviceCtx) : DeviceCtx :=
  match dc.prevStack with
  | [] => dc
  | p :: rest => { current := p, prevStack := rest }

/-- Modelled from the spec: Fl_Image_Surface_Driver::newImageSurfaceDriver.
With a caller-supplied buffer handle `off` the driver wraps it in
borrowed mode at exactly `w` x `h` pixels, ignoring `high_res`.
Otherwise it allocates a fresh owned buffer whose physical size is the
scaled logical size when `high_res` is set and `w` x `h` verbatim when
not; a freshly allocated buffer is blank (content 0). -/
def newImageSurfaceDriver (env : Env) (w h : Nat) (high_res : Bool) (off : Nat) :
    Fl_Image_Surface_Driver × Env :=
  if off ≠ 0 then
    ({ width := w, height := h, pixW := w, pixH := h, offscreen := off,
       content := 0, borrowed := true }, env)
  else
    ({ width := w, height := h,
       pixW := if high_res then env.sc w else w,
       pixH := if high_res then env.sc h else h,
       offscreen := env.nextOff, content := 0, borrowed := false },
     { env with nextOff := env.nextOff + 1 })

/-- The image type returned by image extraction: `pix` is its own copy
of the pixel content, `data_w` x `data_h` the pixel size of that data,
and `w` x `h` the logical reporting size. -/
structure Fl_RGB_Image where
  pix : Nat
  data_w : Nat
  data_h : Nat
  w : Nat
  h : Nat
deriving DecidableEq

/-- Modelled from the spec: Fl_Image::scale(w, h, 1, 1) sets the
image's logical reporting size to the requested size. -/
def Fl_RGB_Image.scale (img : Fl_RGB_Image) (w h : Nat) : Fl_RGB_Image :=
  { img with w := w, h := h }

/-- Modelled from the spec: the driver-level pixel-extraction protocol
returns a new image holding its own copy of the buffer content at the
physical pixel size. -/
def Fl_Image_Surface_Driver.image (d : Fl_Image_Surface_Driver) : Fl_RGB_Image :=
  { pix := d.content, data_w := d.pixW, data_h := d.pixH, w := d.pixW, h := d.pixH }

/-- Fl_Image_Surface_Driver::printable_rect (src/src/Fl_Image_Surface.cxx,
lines 88-91): reports the driver's width and height. -/
def Fl_Image_Surface_Driver.printable_rect (d : Fl_Image_Surface_Driver) : Nat × Nat :=
  (d.width, d.height)

/-- Fl_Image_Surface: the public surface object; `platform_surface`
is null after teardown (for example after
get_offscreen_before_delete_). -/
structure Fl_Image_Surface where
  platform_surface : Option Fl_Image_Surface_Driver
deriving DecidableEq

/-- Fl_Image_Surface::offscreen (src/src/Fl_Image_Surface.cxx, lines
77-79): the driver's buffer handle, or the null handle 0 when the
driver pointer is null. -/
def Fl_Image_Surface.offscreen (s : Fl_Image_Surface) : Nat :=
  match s.platform_surface with
  | some d => d.offscreen
  | none => 0

/-- Fl_Image_Surface::printable_rect (src/src/Fl_Image_Surface.cxx,
line 81) forwards to the driver (the source does not null-check here;
the null case is never exercised). -/
def Fl_Image_Surface.printable_rect (s : Fl_Image_Surface) : Nat × Nat :=
  match s.platform_surface with
  | some d => d.printable_rect
  | none => (0, 0)

/-- Fl_Image_Surface::is_current (src/src/Fl_Image_Surface.cxx, lines
61-63): whether the platform driver is the current drawing device. -/
def Fl_Image_Surface.is_current (s : Fl_Image_Surface) (dc : DeviceCtx) : Bool :=
  match s.platform_surface with
  | some d => dc.current == d.offscreen
  | none => false

/-- Fl_Image_Surface::set_current (src/src/Fl_Image_Surface.cxx, lines
57-59) forwards to the driver when it exists, so pushing the surface
makes its driver the current device; with a null driver the current
device is unchanged. push_current on the surface saves the previous
current device first. -/
def push_current_surface (dc : DeviceCtx) (s : Fl_Image_Surface) : DeviceCtx :=
  { current := match s.platform_surface with
      | some d => d.offscreen
      | none => dc.current,
    prevStack := dc.current :: dc.prevStack }

/-- Destructor of Fl_Image_Surface (src/src/Fl_Image_Surface.cxx,
lines 46-49): if the surface is current it is deactivated first
(end_current, modelled from the spec's Destroy operation as popping
the activation stack); releasing the buffer leaves no observable
state here. -/
def Fl_Image_Surface.destructor (s : Fl_Image_Surface) (dc : DeviceCtx) : DeviceCtx :=
  if s.is_current dc then pop_current dc else dc

/-- Constructor Fl_Image_Surface(w, h, high_res, off)
(src/src/Fl_Image_Surface.cxx, lines 38-42): builds the platform
driver. -/
def Fl_Image_Surface.construct (env : Env) (w h : Nat) (high_res : Bool) (off : Nat) :
    Fl_Image_Surface × Env :=
  let p := newImageSurfaceDriver env w h high_res off
  (⟨some p.1⟩, p.2)

/-- Fl_Image_Surface::image (src/src/Fl_Image_Surface.cxx, lines
151-158): when the surface is not the current device it is temporarily
pushed, the driver extracts the pixels, the previous device is
restored, and the image's reported size is set to the driver's width
and height (the source does not null-check platform_surface; the null
case is modelled as returning nothing). -/
def Fl_Image_Surface.image (s : Fl_Image_Surface) (dc : DeviceCtx) :
    Option (Fl_RGB_Image × DeviceCtx) :=
  match s.platform_surface with
  | none => none
  | some d =>
    let need_push := dc.current ≠ d.offscreen
    let dc1 := if need_push then push_current_dev dc d.offscreen else dc
    let img := d.image
    let dc2 := if need_push then pop_current dc1 else dc1
    some (img.scale d.width d.height, dc2)

/-- The shared-image wrapper used by highres_image; `w` x `h` is its
logical reporting size. -/
structure Fl_Shared_Image where
  img : Fl_RGB_Image
  w : Nat
  h : Nat
deriving DecidableEq

/-- Modelled from the spec: Fl_Shared_Image::get wraps an image. -/
def Fl_Shared_Image.get (img : Fl_RGB_Image) : Fl_Shared_Image :=
  ⟨img, img.w, img.h⟩

/-- Modelled from the spec: Fl_Shared_Image::scale(w, h, 1, 1) sets
the reporting size. -/
def Fl_Shared_Image.scale (si : Fl_Shared_Image) (w h : Nat) : Fl_Shared_Image :=
  { si with w := w, h := h }

/-- Fl_Image_Surface::highres_image (src/src/Fl_Image_Surface.cxx,
lines 168-176): NULL when the driver pointer is null; otherwise wraps
image() in a shared image scaled to the printable_rect size. -/
def Fl_Image_Surface.highres_image (s : Fl_Image_Surface) (dc : DeviceCtx) :
    Option (Fl_Shared_Image × DeviceCtx) :=
  match s.platform_surface with
  | none => none
  | some d =>
    (s.image dc).map fun p =>
      let s_img := Fl_Shared_Image.get p.1
      let wh := d.printable_rect
      (s_img.scale wh.1 wh.2, p.2)

/-- Fl_Image_Surface::rescale (src/src/Fl_Image_Surface.cxx, lines
190-200): extract the current content, read the printable size,
destroy the driver, build a fresh high-resolution driver at that size,
push the surface, draw the captured image at (0, 0) into the (blank)
new buffer, pop. Returns the new surface together with the updated
collaborator state. -/
def Fl_Image_Surface.rescale (s : Fl_Image_Surface) (env : Env) (dc : DeviceCtx) :
    Option (Fl_Image_Surface × Env × DeviceCtx) :=
  (s.image dc).map fun rgbdc =>
    let rgb := rgbdc.1
    let dc1 := rgbdc.2
    let wh := s.printable_rect
    let dEnv := newImageSurfaceDriver env wh.1 wh.2 true 0
    let d1 := dEnv.1
    let env1 := dEnv.2
    let dc2 := push_current_surface dc1 ⟨some d1⟩
    let d2 := { d1 with content := env1.draw 0 0 rgb.pix d1.content }
    let dc3 := pop_current dc2
    (⟨some d2⟩, env1, dc3)

/-! ## Handle registry (fl_XXX_offscreen) -/

/-- The registry state behind the fl_XXX_offscreen functions:
`slots` is the offscreen_api_surface array up to count_offscreens
(each entry a possibly-null owning surface pointer) and `regMax` is
find_slot's static capacity `max`. -/
structure OffscreenAPI where
  slots : List (Option Fl_Image_Surface)
  regMax : Nat
deriving DecidableEq

/-- The scan inside find_slot (src/src/Fl_Image_Surface.cxx, lines
272-274): index of the first null slot, if any. -/
def findFreeIdx : List (Option Fl_Image_Surface) → Option Nat
  | [] => none
  | none :: _ => some 0
  | some _ :: rest => (findFreeIdx rest).map (· + 1)

/-- find_slot (src/src/Fl_Image_Surface.cxx, lines 270-280): return
the first free slot; otherwise grow the capacity by 20 when the count
has reached it and append a new (still empty) slot. -/
def find_slot (st : OffscreenAPI) : Nat × OffscreenAPI :=
  match findFreeIdx st.slots with
  | some num => (num, st)
  | none =>
    let m := if st.regMax ≤ st.slots.length then st.regMax + 20 else st.regMax
    (st.slots.length, { slots := st.slots ++ [none], regMax := m })

/-- fl_create_offscreen (src/src/Fl_Image_Surface.cxx, lines 306-310):
store a new high-resolution surface in the slot returned by find_slot
and return its buffer handle. -/
def fl_create_offscreen (env : Env) (st : OffscreenAPI) (w h : Nat) :
    Nat × OffscreenAPI × Env :=
  let rankSt := find_slot st
  let sEnv := Fl_Image_Surface.construct env w h true 0
  let st2 := { rankSt.2 with slots := rankSt.2.slots.set rankSt.1 (some sEnv.1) }
  (sEnv.1.offscreen, st2, sEnv.2)

/-- The lookup loop shared by fl_delete_offscreen, fl_begin_offscreen
and fl_rescale_offscreen: the first live slot whose surface's buffer
handle equals `ctx`, with its index. -/
def findOffscreen : List (Option Fl_Image_Surface) → Nat → Option (Nat × Fl_Image_Surface)
  | [], _ => none
  | some s :: rest, ctx =>
    if s.offscreen = ctx then some (0, s)
    else (findOffscreen rest ctx).map fun p => (p.1 + 1, p.2)
  | none :: rest, ctx => (findOffscreen rest ctx).map fun p => (p.1 + 1, p.2)

/-- fl_delete_offscreen (src/src/Fl_Image_Surface.cxx, lines 316-325):
nothing happens for the null handle or when no live surface owns
`ctx`; otherwise the owning surface is destroyed and its slot nulled. -/
def fl_delete_offscreen (st : OffscreenAPI) (dc : DeviceCtx) (ctx : Nat) :
    OffscreenAPI × DeviceCtx :=
  if ctx = 0 then (st, dc)
  else
    match findOffscreen st.slots ctx with
    | some is => ({ st with slots := st.slots.set is.1 none }, is.2.destructor dc)
    | none => (st, dc)

/-- fl_begin_offscreen (src/src/Fl_Image_Surface.cxx, lines 331-338):
push the owning surface when the handle is found, otherwise do
nothing. -/
def fl_begin_offscreen (st : OffscreenAPI) (dc : DeviceCtx) (ctx : Nat) : DeviceCtx :=
  match findOffscreen st.slots ctx with
  | some is => push_current_surface dc is.2
  | none => dc

/-- fl_end_offscreen (src/src/Fl_Image_Surface.cxx, lines 342-344):
pop the current device. -/
def fl_end_offscreen (dc : DeviceCtx) : DeviceCtx :=
  pop_current dc

/-- fl_rescale_offscreen (src/src/Fl_Image_Surface.cxx, lines
353-363): return unchanged when no live surface owns `ctx`; otherwise
rescale the owning surface in place and write its new buffer handle
back through the reference (the first component of the result). A
matching surface with a null driver would dereference null in the
source; that branch is modelled as leaving everything unchanged. -/
def fl_rescale_offscreen (st : OffscreenAPI) (env : Env) (dc : DeviceCtx) (ctx : Nat) :
    Nat × OffscreenAPI × Env × DeviceCtx :=
  match findOffscreen st.slots ctx with
  | none => (ctx, st, env, dc)
  | some is =>
    match is.2.rescale env dc with
    | some r => (r.1.offscreen, { st with slots := st.slots.set is.1 (some r.1) }, r.2.1, r.2.2)
    | none => (ctx, st, env, dc)

/-! ## Theorems: pixel mask compositor -/

/-- Reading the byte just stored. -/
theorem writeByte_same (buf : Nat → Nat) (i v : Nat) : writeByte buf i v i = v := by
  simp [writeByte]

/-- Reading any other byte sees the previous buffer. -/
theorem writeByte_ne (buf : Nat → Nat) (i v k : Nat) (h : k ≠ i) :
    writeByte buf i v k = buf k := by
  simp [writeByte, h]

/-- Bytes outside the window written by the inner compositor loop are
untouched. -/
theorem cwmInner_frame (alphaArr src : Nat → Nat) (aB rB : Nat) :
    ∀ (n : Nat) (dst : Nat → Nat) (k : Nat), (k < rB ∨ rB + 3 * n ≤ k) →
      cwmInner alphaArr src aB rB n dst k = dst k := by
  intro n
  induction n with
  | zero => intro dst k _; rfl
  | succ m ih =>
    intro dst k hk
    simp only [cwmInner]
    rw [writeByte_ne _ _ _ _ (by omega), writeByte_ne _ _ _ _ (by omega),
        writeByte_ne _ _ _ _ (by omega)]
    exact ih dst k (by omega)

/-- Each byte inside the window written by the inner compositor loop
receives the alpha blend of the original destination and source
bytes. -/
theorem cwmInner_read (alphaArr src : Nat → Nat) (aB rB : Nat) :
    ∀ (n : Nat) (dst : Nat → Nat) (j c : Nat), j < n → c < 3 →
      cwmInner alphaArr src aB rB n dst (rB + 3 * j + c) =
        (dst (rB + 3 * j + c) * (255 - alphaArr (aB + j)) +
         src (rB + 3 * j + c) * alphaArr (aB + j)) / 255 := by
  intro n
  induction n with
  | zero => intro dst j c hj _; omega
  | succ m ih =>
    intro dst j c hj hc
    rcases Nat.lt_succ_iff_lt_or_eq.mp hj with hj' | rfl
    · simp only [cwmInner]
      rw [writeByte_ne _ _ _ _ (by omega), writeByte_ne _ _ _ _ (by omega),
          writeByte_ne _ _ _ _ (by omega)]
      exact ih dst j c hj' hc
    · have hfr0 := cwmInner_frame alphaArr src aB rB j dst (rB + 3 * j) (by omega)
      have hfr1 := cwmInner_frame alphaArr src aB rB j dst (rB + 3 * j + 1) (by omega)
      have hfr2 := cwmInner_frame alphaArr src aB rB j dst (rB + 3 * j + 2) (by omega)
      interval_cases c
      · simp only [cwmInner, Nat.add_zero]
        rw [writeByte_ne _ _ _ _ (by omega), writeByte_ne _ _ _ _ (by omega),
            writeByte_same, hfr0]
      · simp only [cwmInner]
        rw [writeByte_ne _ _ _ _ (by omega), writeByte_same,
            writeByte_ne _ _ _ _ (by omega), hfr1]
      · simp only [cwmInner]
        rw [writeByte_same, writeByte_ne _ _ _ _ (by omega),
            writeByte_ne _ _ _ _ (by omega), hfr2]

/-- Bytes at or beyond the n-th row offset are untouched by the first
n rows of the compositor (each row writes only 3*w of its line_size
bytes). -/
theorem cwmRows_frame (alphaArr src : Nat → Nat) (w h ls : Nat) (b2t : Bool)
    (hw : 3 * w ≤ ls) :
    ∀ (n : Nat) (dst : Nat → Nat) (k : Nat), n * ls ≤ k →
      cwmRows alphaArr src w h ls b2t n dst k = dst k := by
  intro n
  induction n with
  | zero => intro dst k _; rfl
  | succ m ih =>
    intro dst k hk
    have hk' : m * ls + ls ≤ k := by
      have := hk
      rw [Nat.succ_mul] at this
      omega
    simp only [cwmRows]
    rw [cwmInner_frame _ _ _ _ w _ k (Or.inr (by omega))]
    exact ih dst k (by omega)

/-- Pointwise description of the full compositor loop: byte `c` of
pixel `(i, j)` is blended with the alpha byte of the straight or
flipped mask row. -/
theorem cwmRows_read (alphaArr src : Nat → Nat) (w h ls : Nat) (b2t : Bool)
    (hw : 3 * w ≤ ls) :
    ∀ (n : Nat) (dst : Nat → Nat) (i j c : Nat), i < n → j < w → c < 3 →
      cwmRows alphaArr src w h ls b2t n dst (i * ls + 3 * j + c) =
        (dst (i * ls + 3 * j + c) *
           (255 - alphaArr ((if b2t then h - i - 1 else i) * w + j)) +
         src (i * ls + 3 * j + c) *
           alphaArr ((if b2t then h - i - 1 else i) * w + j)) / 255 := by
  intro n
  induction n with
  | zero => intro dst i j c hi _ _; omega
  | succ m ih =>
    intro dst i j c hi hj hc
    rcases Nat.lt_succ_iff_lt_or_eq.mp hi with hi' | rfl
    · have hlt : i * ls + 3 * j + c < m * ls := by
        have h2 : (i + 1) * ls ≤ m * ls := Nat.mul_le_mul_right ls (by omega)
        rw [Nat.succ_mul] at h2
        omega
      simp only [cwmRows]
      rw [cwmInner_frame _ _ _ _ w _ _ (Or.inl hlt)]
      exact ih dst i j c hi' hj hc
    · simp only [cwmRows]
      rw [cwmInner_read _ _ _ _ w _ j c hj hc]
      rw [cwmRows_frame _ _ _ _ _ _ hw i dst (i * ls + 3 * j + c) (by omega)]

/-- C1: for equal-dimension background/foreground buffers and a
same-size single-channel alpha mask, copy_with_mask updates every
colour byte of pixel (i, j) to
(background * (255 - alpha) + foreground * alpha) / 255 with
truncating division, where alpha is the mask byte of the (possibly
flipped) row i; in particular the byte is unchanged for alpha = 0 and
becomes the foreground byte for alpha = 255. -/
theorem copy_with_mask_blends_channels (mask : RGBImageData)
    (dib_dst dib_src : Nat → Nat) (line_size : Nat) (bottom_to_top : Bool)
    (i j c : Nat) (hi : i < mask.data_h) (hj : j < mask.data_w) (hc : c < 3)
    (hls : 3 * mask.data_w ≤ line_size) :
    copy_with_mask mask dib_dst dib_src line_size bottom_to_top
        (i * line_size + 3 * j + c) =
      (dib_dst (i * line_size + 3 * j + c) *
         (255 - mask.array
           ((if bottom_to_top then mask.data_h - i - 1 else i) * mask.data_w + j)) +
       dib_src (i * line_size + 3 * j + c) *
         mask.array
           ((if bottom_to_top then mask.data_h - i - 1 else i) * mask.data_w + j)) / 255 ∧
    (mask.array ((if bottom_to_top then mask.data_h - i - 1 else i) * mask.data_w + j) = 0 →
      copy_with_mask mask dib_dst dib_src line_size bottom_to_top
          (i * line_size + 3 * j + c) =
        dib_dst (i * line_size + 3 * j + c)) ∧
    (mask.array ((if bottom_to_top then mask.data_h - i - 1 else i) * mask.data_w + j) = 255 →
      copy_with_mask mask dib_dst dib_src line_size bottom_to_top
          (i * line_size + 3 * j + c) =
        dib_src (i * line_size + 3 * j + c)) := by
  have hmain := cwmRows_read mask.array dib_src mask.data_w mask.data_h line_size
    bottom_to_top hls mask.data_h dib_dst i j c hi hj hc
  refine ⟨hmain, fun h0 => ?_, fun h255 => ?_⟩
  · rw [copy_with_mask, hmain, h0]
    simp [Nat.mul_div_cancel]
  · rw [copy_with_mask, hmain, h255]
    simp [Nat.mul_div_cancel]

/-- Witness for C1 at a concrete 2 x 2 mask and concrete buffers. -/
theorem copy_with_mask_blends_channels_witness :
    (1 < 2 ∧ 0 < 2 ∧ 2 < 3 ∧ 3 * 2 ≤ 6) ∧
    (copy_with_mask ⟨2, 2, 1, 0, fun k => List.getD [10, 0, 255, 40] k 0⟩
        (fun k => k + 1) (fun k => 2 * k) 6 false (1 * 6 + 3 * 0 + 2) =
      ((fun k => k + 1) (1 * 6 + 3 * 0 + 2) *
         (255 - (fun k => List.getD [10, 0, 255, 40] k 0) ((if false then 2 - 1 - 1 else 1) * 2 + 0)) +
       (fun k => 2 * k) (1 * 6 + 3 * 0 + 2) *
         (fun k => List.getD [10, 0, 255, 40] k 0) ((if false then 2 - 1 - 1 else 1) * 2 + 0)) / 255 ∧
     ((fun k => List.getD [10, 0, 255, 40] k 0) ((if false then 2 - 1 - 1 else 1) * 2 + 0) = 0 →
      copy_with_mask ⟨2, 2, 1, 0, fun k => List.getD [10, 0, 255, 40] k 0⟩
          (fun k => k + 1) (fun k => 2 * k) 6 false (1 * 6 + 3 * 0 + 2) =
        (fun k => k + 1) (1 * 6 + 3 * 0 + 2)) ∧
     ((fun k => List.getD [10, 0, 255, 40] k 0) ((if false then 2 - 1 - 1 else 1) * 2 + 0) = 255 →
      copy_with_mask ⟨2, 2, 1, 0, fun k => List.getD [10, 0, 255, 40] k 0⟩
          (fun k => k + 1) (fun k => 2 * k) 6 false (1 * 6 + 3 * 0 + 2) =
        (fun k => 2 * k) (1 * 6 + 3 * 0 + 2))) :=
  ⟨⟨by decide, by decide, by decide, by decide⟩,
   copy_with_mask_blends_channels ⟨2, 2, 1, 0, fun k => List.getD [10, 0, 255, 40] k 0⟩
     (fun k => k + 1) (fun k => 2 * k) 6 false 1 0 2
     (by decide) (by decide) (by decide) (by decide)⟩

/-- The inner compositor loop depends on the mask only through the
alpha bytes it actually reads. -/
theorem cwmInner_congr (a1 a2 src : Nat → Nat) (aB1 aB2 rB : Nat) :
    ∀ (n : Nat) (dst : Nat → Nat), (∀ j, j < n → a1 (aB1 + j) = a2 (aB2 + j)) →
      cwmInner a1 src aB1 rB n dst = cwmInner a2 src aB2 rB n dst := by
  intro n
  induction n with
  | zero => intro dst _; rfl
  | succ m ih =>
    intro dst hequal
    simp only [cwmInner]
    rw [ih dst (fun j hj => hequal j (by omega)), hequal m (by omega)]

/-- Running the rows bottom-to-top over a mask is running them
top-to-bottom over the row-reversed mask. -/
theorem cwmRows_reverse (m : RGBImageData) (src : Nat → Nat) (ls : Nat) :
    ∀ (n : Nat) (dst : Nat → Nat),
      cwmRows m.array src m.data_w m.data_h ls true n dst =
        cwmRows m.reverseRows.array src m.data_w m.data_h ls false n dst := by
  intro n
  induction n with
  | zero => intro dst; rfl
  | succ i ih =>
    intro dst
    simp only [cwmRows]
    rw [ih dst]
    refine cwmInner_congr _ _ _ _ _ _ m.data_w _ (fun j hj => ?_)
    have hw : 0 < m.data_w := by omega
    simp only [RGBImageData.reverseRows]
    rw [if_pos trivial, if_neg (by simp)]
    rw [show i * m.data_w + j = j + m.data_w * i by ring]
    rw [Nat.add_mul_div_left _ _ hw, Nat.add_mul_mod_self_left,
        Nat.div_eq_of_lt hj, Nat.mod_eq_of_lt hj]
    have : m.data_h - 1 - (0 + i) = m.data_h - i - 1 := by omega
    rw [this]

/-- C5: compositing with bottom_to_top = true indexes the alpha buffer
with the flipped row while walking background and foreground in
storage order, so it equals compositing with bottom_to_top = false on
the row-reversed mask. -/
theorem copy_with_mask_bottom_to_top_reverses_mask_rows (mask : RGBImageData)
    (dib_dst dib_src : Nat → Nat) (line_size : Nat) :
    copy_with_mask mask dib_dst dib_src line_size true =
      copy_with_mask mask.reverseRows dib_dst dib_src line_size false := by
  unfold copy_with_mask
  exact cwmRows_reverse mask dib_src line_size mask.data_h dib_dst

/-! ## Theorems: luminance reducer -/

/-- Row-major index arithmetic for a column inside the row. -/
theorem rowcol_div_mod (i j W : Nat) (hj : j < W) :
    (i * W + j) / W = i ∧ (i * W + j) % W = j := by
  have hw : 0 < W := by omega
  constructor
  · rw [show i * W + j = j + W * i by ring, Nat.add_mul_div_left _ _ hw,
        Nat.div_eq_of_lt hj]
    omega
  · rw [show i * W + j = j + W * i by ring, Nat.add_mul_mod_self_left,
        Nat.mod_eq_of_lt hj]

/-- A row-major index lies inside the W * H buffer. -/
theorem rowcol_lt (i j W H : Nat) (hi : i < H) (hj : j < W) : i * W + j < W * H := by
  have h1 : i * W + j < (i + 1) * W := by rw [Nat.succ_mul]; omega
  have h2 : (i + 1) * W ≤ H * W := Nat.mul_le_mul_right W (by omega)
  rw [Nat.mul_comm W H]
  omega

/-- C6: RGB3_to_RGB1 produces a single-channel W x H buffer,
resampling the source exactly when its pixel size differs from
(W, H); every output pixel is the truncated mean of the three bytes of
the corresponding (possibly resampled) source pixel, read with the
source stride, defaulted to 3 * W when the source reports none. -/
theorem RGB3_to_RGB1_reduces_luminance
    (resample : RGBImageData → Nat → Nat → RGBImageData) (rgb3 : RGBImageData)
    (W H i j : Nat) (hi : i < H) (hj : j < W) :
    (RGB3_to_RGB1 resample rgb3 W H).data_w = W ∧
    (RGB3_to_RGB1 resample rgb3 W H).data_h = H ∧
    (RGB3_to_RGB1 resample rgb3 W H).d = 1 ∧
    (W = rgb3.data_w ∧ H = rgb3.data_h →
      (RGB3_to_RGB1 resample rgb3 W H).array (i * W + j) =
        (rgb3.array (i * (if rgb3.ld = 0 then 3 * W else rgb3.ld) + 3 * j) +
         rgb3.array (i * (if rgb3.ld = 0 then 3 * W else rgb3.ld) + 3 * j + 1) +
         rgb3.array (i * (if rgb3.ld = 0 then 3 * W else rgb3.ld) + 3 * j + 2)) / 3) ∧
    (¬(W = rgb3.data_w ∧ H = rgb3.data_h) →
      (RGB3_to_RGB1 resample rgb3 W H).array (i * W + j) =
        ((resample rgb3 W H).array
           (i * (if (resample rgb3 W H).ld = 0 then 3 * W else (resample rgb3 W H).ld) + 3 * j) +
         (resample rgb3 W H).array
           (i * (if (resample rgb3 W H).ld = 0 then 3 * W else (resample rgb3 W H).ld) + 3 * j + 1) +
         (resample rgb3 W H).array
           (i * (if (resample rgb3 W H).ld = 0 then 3 * W else (resample rgb3 W H).ld) + 3 * j + 2)) / 3) := by
  have hk : i * W + j < W * H := rowcol_lt i j W H hi hj
  have hdm := rowcol_div_mod i j W hj
  refine ⟨rfl, rfl, rfl, fun hdim => ?_, fun hdim => ?_⟩
  · simp only [RGB3_to_RGB1, if_pos hdim]
    rw [if_pos hk, hdm.1, hdm.2]
  · simp only [RGB3_to_RGB1, if_neg hdim]
    rw [if_pos hk, hdm.1, hdm.2]

/-- Witness for C6 at a concrete 2 x 1 source that needs no resample
(and a concrete resampler for the vacuous branch). -/
theorem RGB3_to_RGB1_reduces_luminance_witness :
    (0 < 1 ∧ 1 < 2) ∧
    ((RGB3_to_RGB1 (fun _ a b => ⟨a, b, 3, 0, fun _ => 9⟩) ⟨2, 1, 3, 0, fun k => k⟩ 2 1).data_w = 2 ∧
     (RGB3_to_RGB1 (fun _ a b => ⟨a, b, 3, 0, fun _ => 9⟩) ⟨2, 1, 3, 0, fun k => k⟩ 2 1).data_h = 1 ∧
     (RGB3_to_RGB1 (fun _ a b => ⟨a, b, 3, 0, fun _ => 9⟩) ⟨2, 1, 3, 0, fun k => k⟩ 2 1).d = 1 ∧
     (2 = (⟨2, 1, 3, 0, fun k => k⟩ : RGBImageData).data_w ∧
      1 = (⟨2, 1, 3, 0, fun k => k⟩ : RGBImageData).data_h →
       (RGB3_to_RGB1 (fun _ a b => ⟨a, b, 3, 0, fun _ => 9⟩) ⟨2, 1, 3, 0, fun k => k⟩ 2 1).array (0 * 2 + 1) =
         ((⟨2, 1, 3, 0, fun k => k⟩ : RGBImageData).array
            (0 * (if (⟨2, 1, 3, 0, fun k => k⟩ : RGBImageData).ld = 0 then 3 * 2 else (⟨2, 1, 3, 0, fun k => k⟩ : RGBImageData).ld) + 3 * 1) +
          (⟨2, 1, 3, 0, fun k => k⟩ : RGBImageData).array
            (0 * (if (⟨2, 1, 3, 0, fun k => k⟩ : RGBImageData).ld = 0 then 3 * 2 else (⟨2, 1, 3, 0, fun k => k⟩ : RGBImageData).ld) + 3 * 1 + 1) +
          (⟨2, 1, 3, 0, fun k => k⟩ : RGBImageData).array
            (0 * (if (⟨2, 1, 3, 0, fun k => k⟩ : RGBImageData).ld = 0 then 3 * 2 else (⟨2, 1, 3, 0, fun k => k⟩ : RGBImageData).ld) + 3 * 1 + 2)) / 3) ∧
     (¬(2 = (⟨2, 1, 3, 0, fun k => k⟩ : RGBImageData).data_w ∧
        1 = (⟨2, 1, 3, 0, fun k => k⟩ : RGBImageData).data_h) →
       (RGB3_to_RGB1 (fun _ a b => ⟨a, b, 3, 0, fun _ => 9⟩) ⟨2, 1, 3, 0, fun k => k⟩ 2 1).array (0 * 2 + 1) =
         (((fun (_ : RGBImageData) (a b : Nat) => (⟨a, b, 3, 0, fun _ => 9⟩ : RGBImageData)) ⟨2, 1, 3, 0, fun k => k⟩ 2 1).array
            (0 * (if ((fun (_ : RGBImageData) (a b : Nat) => (⟨a, b, 3, 0, fun _ => 9⟩ : RGBImageData)) ⟨2, 1, 3, 0, fun k => k⟩ 2 1).ld = 0 then 3 * 2 else ((fun (_ : RGBImageData) (a b : Nat) => (⟨a, b, 3, 0, fun _ => 9⟩ : RGBImageData)) ⟨2, 1, 3, 0, fun k => k⟩ 2 1).ld) + 3 * 1) +
          ((fun (_ : RGBImageData) (a b : Nat) => (⟨a, b, 3, 0, fun _ => 9⟩ : RGBImageData)) ⟨2, 1, 3, 0, fun k => k⟩ 2 1).array
            (0 * (if ((fun (_ : RGBImageData) (a b : Nat) => (⟨a, b, 3, 0, fun _ => 9⟩ : RGBImageData)) ⟨2, 1, 3, 0, fun k => k⟩ 2 1).ld = 0 then 3 * 2 else ((fun (_ : RGBImageData) (a b : Nat) => (⟨a, b, 3, 0, fun _ => 9⟩ : RGBImageData)) ⟨2, 1, 3, 0, fun k => k⟩ 2 1).ld) + 3 * 1 + 1) +
          ((fun (_ : RGBImageData) (a b : Nat) => (⟨a, b, 3, 0, fun _ => 9⟩ : RGBImageData)) ⟨2, 1, 3, 0, fun k => k⟩ 2 1).array
            (0 * (if ((fun (_ : RGBImageData) (a b : Nat) => (⟨a, b, 3, 0, fun _ => 9⟩ : RGBImageData)) ⟨2, 1, 3, 0, fun k => k⟩ 2 1).ld = 0 then 3 * 2 else ((fun (_ : RGBImageData) (a b : Nat) => (⟨a, b, 3, 0, fun _ => 9⟩ : RGBImageData)) ⟨2, 1, 3, 0, fun k => k⟩ 2 1).ld) + 3 * 1 + 2)) / 3)) :=
  ⟨⟨by decide, by decide⟩,
   RGB3_to_RGB1_reduces_luminance (fun _ a b => ⟨a, b, 3, 0, fun _ => 9⟩)
     ⟨2, 1, 3, 0, fun k => k⟩ 2 1 0 1 (by decide) (by decide)⟩

/-- Materializing the temporary copy writes only its own address
range. -/
theorem writeListAt_frame :
    ∀ (l : List Nat) (heap : Nat → Nat) (base a : Nat),
      (a < base ∨ base + l.length ≤ a) → writeListAt heap base l a = heap a := by
  intro l
  induction l with
  | nil => intro heap base a _; rfl
  | cons v rest ih =>
    intro heap base a ha
    simp only [List.length_cons] at ha
    simp only [writeListAt]
    rw [ih _ _ _ (by omega), writeByte_ne _ _ _ _ (by omega)]

/-- One luminance row writes only its own output range. -/
theorem lumRow_frame (sBase dBase : Nat) :
    ∀ (n : Nat) (heap : Nat → Nat) (a : Nat), (a < dBase ∨ dBase + n ≤ a) →
      lumRow heap sBase dBase n a = heap a := by
  intro n
  induction n with
  | zero => intro heap a _; rfl
  | succ m ih =>
    intro heap a ha
    simp only [lumRow]
    rw [writeByte_ne _ _ _ _ (by omega)]
    exact ih heap a (by omega)

/-- The full luminance loop writes only the W * n output bytes at
dBase. -/
theorem lumRows_frame (sBase ld dBase W : Nat) :
    ∀ (n : Nat) (heap : Nat → Nat) (a : Nat), (a < dBase ∨ dBase + n * W ≤ a) →
      lumRows heap sBase ld dBase W n a = heap a := by
  intro n
  induction n with
  | zero => intro heap a _; rfl
  | succ m ih =>
    intro heap a ha
    have hm : m * W ≤ (m + 1) * W := Nat.mul_le_mul_right W (by omega)
    rw [Nat.succ_mul] at ha
    simp only [lumRows]
    rw [lumRow_frame _ _ _ _ _ (by omega)]
    exact ih heap a (by omega)

/-- C7: the heap-level RGB3_to_RGB1 never writes the caller-supplied
source buffer: with the output allocation and the temporary resampled
copy disjoint from the source region, every source byte is unchanged,
whether or not a resample was needed. -/
theorem RGB3_to_RGB1_mem_preserves_source (heap : Nat → Nat)
    (srcBase srcLen srcW srcH srcLd : Nat) (tmp : List Nat)
    (tmpBase tmpLd dstBase W H a : Nat)
    (hsd : srcBase + srcLen ≤ dstBase ∨ dstBase + W * H ≤ srcBase)
    (hst : srcBase + srcLen ≤ tmpBase ∨ tmpBase + tmp.length ≤ srcBase)
    (ha1 : srcBase ≤ a) (ha2 : a < srcBase + srcLen) :
    RGB3_to_RGB1_mem heap srcBase srcW srcH srcLd tmp tmpBase tmpLd dstBase W H a
      = heap a := by
  have hWH : H * W = W * H := Nat.mul_comm H W
  by_cases hdim : W = srcW ∧ H = srcH
  · simp only [RGB3_to_RGB1_mem, if_pos hdim]
    rw [lumRows_frame _ _ _ _ H heap a (by rw [hWH]; omega)]
  · simp only [RGB3_to_RGB1_mem, if_neg hdim]
    rw [lumRows_frame _ _ _ _ H _ a (by rw [hWH]; omega)]
    exact writeListAt_frame tmp heap tmpBase a (by omega)

/-- Witness for C7 at concrete disjoint regions. -/
theorem RGB3_to_RGB1_mem_preserves_source_witness :
    ((0 + 12 ≤ 50 ∨ 50 + 2 * 2 ≤ 0) ∧
     (0 + 12 ≤ 100 ∨ 100 + [1, 2, 3].length ≤ 0) ∧ 0 ≤ 5 ∧ 5 < 0 + 12) ∧
    RGB3_to_RGB1_mem (fun k => k) 0 2 2 0 [1, 2, 3] 100 0 50 2 2 5 = (fun k => k) 5 :=
  ⟨⟨Or.inl (by decide), Or.inl (by decide), by decide, by decide⟩,
   RGB3_to_RGB1_mem_preserves_source (fun k => k) 0 12 2 2 0 [1, 2, 3] 100 0 50 2 2 5
     (Or.inl (by decide)) (Or.inl (by decide)) (by decide) (by decide)⟩

/-! ## Theorems: surface lifecycle -/

/-- Characterization of Fl_Image_Surface::image on a live driver: the
device context is restored (whether or not a temporary push was
needed), the image holds its own copy of the content at the physical
pixel size, and its reported size is the driver's width and height. -/
theorem Fl_Image_Surface_image_eq (d : Fl_Image_Surface_Driver) (dc : DeviceCtx) :
    Fl_Image_Surface.image ⟨some d⟩ dc =
      some ({ pix := d.content, data_w := d.pixW, data_h := d.pixH,
              w := d.width, h := d.height }, dc) := by
  by_cases h : dc.current = d.offscreen
  · simp [Fl_Image_Surface.image, h, Fl_Image_Surface_Driver.image, Fl_RGB_Image.scale]
  · simp [Fl_Image_Surface.image, h, push_current_dev, pop_current,
          Fl_Image_Surface_Driver.image, Fl_RGB_Image.scale]

/-- Characterization of Fl_Image_Surface::rescale on a live driver:
the new driver keeps the logical size, recomputes the physical size
from the current scale, holds the captured old content drawn at
(0, 0) over a blank buffer under a fresh owned handle, and the device
context is restored. -/
theorem Fl_Image_Surface_rescale_eq (d : Fl_Image_Surface_Driver) (env : Env)
    (dc : DeviceCtx) :
    Fl_Image_Surface.rescale ⟨some d⟩ env dc =
      some (⟨some { width := d.width, height := d.height,
                    pixW := env.sc d.width, pixH := env.sc d.height,
                    offscreen := env.nextOff,
                    content := env.draw 0 0 d.content 0, borrowed := false }⟩,
            { env with nextOff := env.nextOff + 1 }, dc) := by
  rw [Fl_Image_Surface.rescale, Fl_Image_Surface_image_eq]
  simp [Fl_Image_Surface.printable_rect, Fl_Image_Surface_Driver.printable_rect,
        newImageSurfaceDriver, push_current_surface, pop_current]

/-- C3 (amended): image() on a surface with a live driver restores
the previously active destination before returning (it is temporarily
activated only if not already current), and the returned image is a
fresh value-copy of the surface content at the physical pixel size
whose reported logical size is rescaled to the surface's logical
(FLTK-unit) size, not to the physical pixel size. -/
theorem image_restores_context_and_reports_logical_size
    (s : Fl_Image_Surface) (d : Fl_Image_Surface_Driver) (dc : DeviceCtx)
    (h : s.platform_surface = some d) :
    s.image dc = some ({ pix := d.content, data_w := d.pixW, data_h := d.pixH,
                         w := d.width, h := d.height }, dc) := by
  cases s with
  | mk ps =>
    cases h
    exact Fl_Image_Surface_image_eq d dc

/-- Witness for C3 on a concrete high-resolution surface. -/
theorem image_restores_context_and_reports_logical_size_witness :
    ((⟨some ⟨4, 4, 8, 8, 9, 7, false⟩⟩ : Fl_Image_Surface).platform_surface =
        some ⟨4, 4, 8, 8, 9, 7, false⟩) ∧
    Fl_Image_Surface.image ⟨some ⟨4, 4, 8, 8, 9, 7, false⟩⟩ ⟨0, []⟩ =
      some (⟨7, 8, 8, 4, 4⟩, ⟨0, []⟩) :=
  ⟨rfl, image_restores_context_and_reports_logical_size
    ⟨some ⟨4, 4, 8, 8, 9, 7, false⟩⟩ ⟨4, 4, 8, 8, 9, 7, false⟩ ⟨0, []⟩ rfl⟩

/-- Counterexample to C3 as stated: for a surface of logical size 4x4
with physical pixel size 8x8, the image returned by image() reports
size (4, 4), not the physical (8, 8). -/
theorem image_reported_size_not_physical_cex :
    ((Fl_Image_Surface.image ⟨some ⟨4, 4, 8, 8, 9, 7, false⟩⟩ ⟨0, []⟩).map
        (fun p => (p.1.w, p.1.h))) = some (4, 4) ∧
    (some ((4 : Nat), (4 : Nat)) ≠
      some ((⟨4, 4, 8, 8, 9, 7, false⟩ : Fl_Image_Surface_Driver).pixW,
            (⟨4, 4, 8, 8, 9, 7, false⟩ : Fl_Image_Surface_Driver).pixH)) := by
  constructor
  · rfl
  · decide

/-- C4 (amended): rescaling an owned, non-active surface keeps the
logical width and height, recomputes the physical pixel size from the
current global scale factor, captures the old content before the old
buffer is destroyed and redraws it at (0, 0) into the fresh buffer,
and restores the device context; a subsequent image() then returns an
image whose pixel data size is the new physical size but whose
reported size is the unchanged logical size. -/
theorem rescale_preserves_logical_size_and_content
    (s : Fl_Image_Surface) (d : Fl_Image_Surface_Driver) (env : Env) (dc : DeviceCtx)
    (h : s.platform_surface = some d) (_hown : d.borrowed = false)
    (_hact : dc.current ≠ d.offscreen) :
    s.rescale env dc =
      some (⟨some { width := d.width, height := d.height,
                    pixW := env.sc d.width, pixH := env.sc d.height,
                    offscreen := env.nextOff,
                    content := env.draw 0 0 d.content 0, borrowed := false }⟩,
            { env with nextOff := env.nextOff + 1 }, dc) ∧
    Fl_Image_Surface.image
        ⟨some { width := d.width, height := d.height,
                pixW := env.sc d.width, pixH := env.sc d.height,
                offscreen := env.nextOff,
                content := env.draw 0 0 d.content 0, borrowed := false }⟩ dc =
      some ({ pix := env.draw 0 0 d.content 0,
              data_w := env.sc d.width, data_h := env.sc d.height,
              w := d.width, h := d.height }, dc) := by
  cases s with
  | mk ps =>
    cases h
    exact ⟨Fl_Image_Surface_rescale_eq d env dc, Fl_Image_Surface_image_eq _ dc⟩

/-- Witness for C4 on a concrete surface at scale factor 2. -/
theorem rescale_preserves_logical_size_and_content_witness :
    ((⟨some ⟨3, 3, 3, 3, 9, 5, false⟩⟩ : Fl_Image_Surface).platform_surface =
        some ⟨3, 3, 3, 3, 9, 5, false⟩ ∧
     (⟨3, 3, 3, 3, 9, 5, false⟩ : Fl_Image_Surface_Driver).borrowed = false ∧
     (⟨0, []⟩ : DeviceCtx).current ≠ (⟨3, 3, 3, 3, 9, 5, false⟩ : Fl_Image_Surface_Driver).offscreen) ∧
    (Fl_Image_Surface.rescale ⟨some ⟨3, 3, 3, 3, 9, 5, false⟩⟩
        ⟨fun n => 2 * n, fun _ _ p _ => p, 100⟩ ⟨0, []⟩ =
      some (⟨some ⟨3, 3, 6, 6, 100, 5, false⟩⟩,
            ⟨fun n => 2 * n, fun _ _ p _ => p, 101⟩, ⟨0, []⟩) ∧
     Fl_Image_Surface.image ⟨some ⟨3, 3, 6, 6, 100, 5, false⟩⟩ ⟨0, []⟩ =
      some (⟨5, 6, 6, 3, 3⟩, ⟨0, []⟩)) :=
  ⟨⟨rfl, rfl, by decide⟩,
   rescale_preserves_logical_size_and_content ⟨some ⟨3, 3, 3, 3, 9, 5, false⟩⟩
     ⟨3, 3, 3, 3, 9, 5, false⟩ ⟨fun n => 2 * n, fun _ _ p _ => p, 100⟩ ⟨0, []⟩
     rfl rfl (by decide)⟩

/-- Counterexample to C4 as stated: after rescaling a 3x3 surface at
scale factor 2 the new physical size is (6, 6), yet a subsequent
image() reports (3, 3). -/
theorem rescale_subsequent_image_not_physical_cex :
    ((Fl_Image_Surface.rescale ⟨some ⟨3, 3, 3, 3, 9, 5, false⟩⟩
        ⟨fun n => 2 * n, fun _ _ p _ => p, 100⟩ ⟨0, []⟩).bind
      (fun r => (r.1.image r.2.2).map (fun p => (p.1.w, p.1.h)))) = some (3, 3) ∧
    ((Fl_Image_Surface.rescale ⟨some ⟨3, 3, 3, 3, 9, 5, false⟩⟩
        ⟨fun n => 2 * n, fun _ _ p _ => p, 100⟩ ⟨0, []⟩).bind
      (fun r => r.1.platform_surface.map (fun dr => (dr.pixW, dr.pixH)))) = some (6, 6) ∧
    (some ((3 : Nat), (3 : Nat)) ≠ some ((6 : Nat), (6 : Nat))) := by
  refine ⟨rfl, rfl, by decide⟩

/-- C10: with a null platform driver, offscreen() returns the null
handle 0 and highres_image() returns NULL; with a live driver,
offscreen() returns that driver's buffer handle. -/
theorem null_driver_queries_degrade (s : Fl_Image_Surface) (dc : DeviceCtx) :
    (s.platform_surface = none → s.offscreen = 0 ∧ s.highres_image dc = none) ∧
    (∀ d, s.platform_surface = some d → s.offscreen = d.offscreen) := by
  constructor
  · intro h
    exact ⟨by simp [Fl_Image_Surface.offscreen, h],
           by simp [Fl_Image_Surface.highres_image, h]⟩
  · intro d h
    simp [Fl_Image_Surface.offscreen, h]

/-- Witness for C10 on a torn-down surface and on a live one. -/
theorem null_driver_queries_degrade_witness :
    (Fl_Image_Surface.offscreen ⟨none⟩ = 0 ∧
     Fl_Image_Surface.highres_image ⟨none⟩ ⟨0, []⟩ = none) ∧
    Fl_Image_Surface.offscreen ⟨some ⟨4, 4, 8, 8, 9, 7, false⟩⟩ =
      (⟨4, 4, 8, 8, 9, 7, false⟩ : Fl_Image_Surface_Driver).offscreen :=
  ⟨(null_driver_queries_degrade ⟨none⟩ ⟨0, []⟩).1 rfl,
   (null_driver_queries_degrade ⟨some ⟨4, 4, 8, 8, 9, 7, false⟩⟩ ⟨0, []⟩).2
     ⟨4, 4, 8, 8, 9, 7, false⟩ rfl⟩

/-! ## Theorems: handle registry -/

/-- The find_slot scan returns exactly the lowest free index. -/
theorem findFreeIdx_of_least :
    ∀ (l : List (Option Fl_Image_Surface)) (k : Nat),
      l.get? k = some none → (∀ j, j < k → l.get? j ≠ some none) →
      findFreeIdx l = some k := by
  intro l
  induction l with
  | nil => intro k hk _; simp at hk
  | cons a rest ih =>
    intro k hk hleast
    cases a with
    | none =>
      cases k with
      | zero => rfl
      | succ k' => exact absurd rfl (hleast 0 (by omega))
    | some s =>
      cases k with
      | zero => simp at hk
      | succ k' =>
        have h1 : rest.get? k' = some none := hk
        have h2 : ∀ j, j < k' → rest.get? j ≠ some none :=
          fun j hj => hleast (j + 1) (by omega)
        simp only [findFreeIdx, ih k' h1 h2, Option.map_some']

/-- With every slot occupied the find_slot scan fails. -/
theorem findFreeIdx_of_full :
    ∀ (l : List (Option Fl_Image_Surface)), (∀ o ∈ l, o ≠ none) →
      findFreeIdx l = none := by
  intro l
  induction l with
  | nil => intro _; rfl
  | cons a rest ih =>
    intro hfull
    cases a with
    | none => exact absurd rfl (hfull none (by simp))
    | some s =>
      simp only [findFreeIdx, ih (fun o ho => hfull o (by simp [ho])), Option.map_none']

/-- Setting the freshly appended slot. -/
theorem set_append_length (l : List (Option Fl_Image_Surface))
    (a b : Option Fl_Image_Surface) :
    (l ++ [a]).set l.length b = l ++ [b] := by
  induction l with
  | nil => rfl
  | cons x xs ih => simp [List.set, ih]

/-- C2: a creation call stores the new surface in the slot with the
lowest free index when one exists (leaving the capacity untouched);
only when every slot is occupied is a new slot appended, and the
backing capacity grows by 20 at a time, exactly when the count has
reached it. -/
theorem fl_create_offscreen_slot_policy (env : Env) (st : OffscreenAPI) (w h : Nat) :
    (∀ k, st.slots.get? k = some none →
      (∀ j, j < k → st.slots.get? j ≠ some none) →
      fl_create_offscreen env st w h =
        (env.nextOff,
         ⟨st.slots.set k (some ⟨some { width := w, height := h, pixW := env.sc w,
                                       pixH := env.sc h, offscreen := env.nextOff,
                                       content := 0, borrowed := false }⟩), st.regMax⟩,
         { env with nextOff := env.nextOff + 1 })) ∧
    ((∀ o ∈ st.slots, o ≠ none) →
      fl_create_offscreen env st w h =
        (env.nextOff,
         ⟨st.slots ++ [some ⟨some { width := w, height := h, pixW := env.sc w,
                                    pixH := env.sc h, offscreen := env.nextOff,
                                    content := 0, borrowed := false }⟩],
          if st.regMax ≤ st.slots.length then st.regMax + 20 else st.regMax⟩,
         { env with nextOff := env.nextOff + 1 })) := by
  constructor
  · intro k hk hleast
    simp [fl_create_offscreen, find_slot, findFreeIdx_of_least st.slots k hk hleast,
          Fl_Image_Surface.construct, newImageSurfaceDriver, Fl_Image_Surface.offscreen]
  · intro hfull
    simp [fl_create_offscreen, find_slot, findFreeIdx_of_full st.slots hfull,
          Fl_Image_Surface.construct, newImageSurfaceDriver, Fl_Image_Surface.offscreen,
          set_append_length]

/-- Witness for C2: a registry whose middle slot was freed reuses that
slot; a full registry at capacity appends and grows the capacity by
20. -/
theorem fl_create_offscreen_slot_policy_witness :
    (((⟨[some ⟨some ⟨1, 1, 1, 1, 11, 0, false⟩⟩, none,
         some ⟨some ⟨1, 1, 1, 1, 12, 0, false⟩⟩], 20⟩ : OffscreenAPI).slots.get? 1 =
        some none ∧
      (∀ j, j < 1 →
        (⟨[some ⟨some ⟨1, 1, 1, 1, 11, 0, false⟩⟩, none,
           some ⟨some ⟨1, 1, 1, 1, 12, 0, false⟩⟩], 20⟩ : OffscreenAPI).slots.get? j ≠
          some none)) ∧
     fl_create_offscreen ⟨fun n => n, fun _ _ p _ => p, 50⟩
        ⟨[some ⟨some ⟨1, 1, 1, 1, 11, 0, false⟩⟩, none,
          some ⟨some ⟨1, 1, 1, 1, 12, 0, false⟩⟩], 20⟩ 5 4 =
       (50, ⟨[some ⟨some ⟨1, 1, 1, 1, 11, 0, false⟩⟩, some ⟨some ⟨5, 4, 5, 4, 50, 0, false⟩⟩,
              some ⟨some ⟨1, 1, 1, 1, 12, 0, false⟩⟩], 20⟩,
        ⟨fun n => n, fun _ _ p _ => p, 51⟩)) ∧
    ((∀ o ∈ (⟨[some ⟨some ⟨1, 1, 1, 1, 11, 0, false⟩⟩], 1⟩ : OffscreenAPI).slots, o ≠ none) ∧
     fl_create_offscreen ⟨fun n => n, fun _ _ p _ => p, 50⟩
        ⟨[some ⟨some ⟨1, 1, 1, 1, 11, 0, false⟩⟩], 1⟩ 2 2 =
       (50, ⟨[some ⟨some ⟨1, 1, 1, 1, 11, 0, false⟩⟩, some ⟨some ⟨2, 2, 2, 2, 50, 0, false⟩⟩], 21⟩,
        ⟨fun n => n, fun _ _ p _ => p, 51⟩)) :=
  ⟨⟨⟨by decide, by decide⟩,
    (fl_create_offscreen_slot_policy ⟨fun n => n, fun _ _ p _ => p, 50⟩
        ⟨[some ⟨some ⟨1, 1, 1, 1, 11, 0, false⟩⟩, none,
          some ⟨some ⟨1, 1, 1, 1, 12, 0, false⟩⟩], 20⟩ 5 4).1 1 (by decide) (by decide)⟩,
   ⟨by decide,
    (fl_create_offscreen_slot_policy ⟨fun n => n, fun _ _ p _ => p, 50⟩
        ⟨[some ⟨some ⟨1, 1, 1, 1, 11, 0, false⟩⟩], 1⟩ 2 2).2 (by decide)⟩⟩

/-- C8: fl_delete_offscreen and fl_begin_offscreen with a handle owned
by no live surface, and fl_delete_offscreen with the null handle, are
silent no-ops leaving the registry and the device context unchanged;
when fl_delete_offscreen finds the owning slot it destroys the surface
and nulls exactly that slot. -/
theorem offscreen_handle_miss_silent_noop (st : OffscreenAPI) (dc : DeviceCtx) (ctx : Nat) :
    (findOffscreen st.slots ctx = none →
      fl_delete_offscreen st dc ctx = (st, dc) ∧ fl_begin_offscreen st dc ctx = dc) ∧
    fl_delete_offscreen st dc 0 = (st, dc) ∧
    (∀ i s, ctx ≠ 0 → findOffscreen st.slots ctx = some (i, s) →
      (fl_delete_offscreen st dc ctx).1 = ⟨st.slots.set i none, st.regMax⟩) := by
  refine ⟨fun h => ⟨?_, ?_⟩, ?_, fun i s hctx hfind => ?_⟩
  · by_cases h0 : ctx = 0
    · simp [fl_delete_offscreen, h0]
    · simp [fl_delete_offscreen, h0, h]
  · simp [fl_begin_offscreen, h]
  · simp [fl_delete_offscreen]
  · simp [fl_delete_offscreen, hctx, hfind]

/-- Witness for C8 on a two-slot registry: handle 999 misses, handle 0
is a no-op, handle 11 deletes slot 0. -/
theorem offscreen_handle_miss_silent_noop_witness :
    (findOffscreen (⟨[some ⟨some ⟨1, 1, 1, 1, 11, 0, false⟩⟩, none], 20⟩ : OffscreenAPI).slots 999 = none ∧
     fl_delete_offscreen ⟨[some ⟨some ⟨1, 1, 1, 1, 11, 0, false⟩⟩, none], 20⟩ ⟨0, []⟩ 999 =
       (⟨[some ⟨some ⟨1, 1, 1, 1, 11, 0, false⟩⟩, none], 20⟩, ⟨0, []⟩) ∧
     fl_begin_offscreen ⟨[some ⟨some ⟨1, 1, 1, 1, 11, 0, false⟩⟩, none], 20⟩ ⟨0, []⟩ 999 =
       ⟨0, []⟩) ∧
    fl_delete_offscreen ⟨[some ⟨some ⟨1, 1, 1, 1, 11, 0, false⟩⟩, none], 20⟩ ⟨0, []⟩ 0 =
      (⟨[some ⟨some ⟨1, 1, 1, 1, 11, 0, false⟩⟩, none], 20⟩, ⟨0, []⟩) ∧
    ((11 ≠ 0 ∧
      findOffscreen (⟨[some ⟨some ⟨1, 1, 1, 1, 11, 0, false⟩⟩, none], 20⟩ : OffscreenAPI).slots 11 =
        some (0, ⟨some ⟨1, 1, 1, 1, 11, 0, false⟩⟩)) ∧
     (fl_delete_offscreen ⟨[some ⟨some ⟨1, 1, 1, 1, 11, 0, false⟩⟩, none], 20⟩ ⟨0, []⟩ 11).1 =
       ⟨[none, none], 20⟩) :=
  ⟨⟨by decide,
    ((offscreen_handle_miss_silent_noop ⟨[some ⟨some ⟨1, 1, 1, 1, 11, 0, false⟩⟩, none], 20⟩
        ⟨0, []⟩ 999).1 (by decide)).1,
    ((offscreen_handle_miss_silent_noop ⟨[some ⟨some ⟨1, 1, 1, 1, 11, 0, false⟩⟩, none], 20⟩
        ⟨0, []⟩ 999).1 (by decide)).2⟩,
   (offscreen_handle_miss_silent_noop ⟨[some ⟨some ⟨1, 1, 1, 1, 11, 0, false⟩⟩, none], 20⟩
      ⟨0, []⟩ 0).2.1,
   ⟨⟨by decide, by decide⟩,
    (offscreen_handle_miss_silent_noop ⟨[some ⟨some ⟨1, 1, 1, 1, 11, 0, false⟩⟩, none], 20⟩
       ⟨0, []⟩ 11).2.2 0 ⟨some ⟨1, 1, 1, 1, 11, 0, false⟩⟩ (by decide) (by decide)⟩⟩

/-- C9: fl_rescale_offscreen with a handle owned by no live surface
returns without modifying the reference or any state; on the owning
slot it rescales that surface in place and writes the surface's new
buffer handle back through the reference. -/
theorem fl_rescale_offscreen_writes_back_handle (st : OffscreenAPI) (env : Env)
    (dc : DeviceCtx) (ctx : Nat) :
    (findOffscreen st.slots ctx = none →
      fl_rescale_offscreen st env dc ctx = (ctx, st, env, dc)) ∧
    (∀ i s d, findOffscreen st.slots ctx = some (i, s) →
      s.platform_surface = some d →
      fl_rescale_offscreen st env dc ctx =
        (env.nextOff,
         ⟨st.slots.set i (some ⟨some { width := d.width, height := d.height,
                                       pixW := env.sc d.width, pixH := env.sc d.height,
                                       offscreen := env.nextOff,
                                       content := env.draw 0 0 d.content 0,
                                       borrowed := false }⟩), st.regMax⟩,
         { env with nextOff := env.nextOff + 1 }, dc)) := by
  constructor
  · intro h
    simp [fl_rescale_offscreen, h]
  · intro i s d hfind hps
    cases s with
    | mk ps =>
      cases hps
      simp [fl_rescale_offscreen, hfind, Fl_Image_Surface_rescale_eq,
            Fl_Image_Surface.offscreen]

/-- Witness for C9: handle 999 misses and nothing changes; handle 11
rescales the surface at scale factor 2 and hands back the fresh
handle 100. -/
theorem fl_rescale_offscreen_writes_back_handle_witness :
    (findOffscreen (⟨[some ⟨some ⟨3, 3, 3, 3, 11, 5, false⟩⟩], 20⟩ : OffscreenAPI).slots 999 = none ∧
     fl_rescale_offscreen ⟨[some ⟨some ⟨3, 3, 3, 3, 11, 5, false⟩⟩], 20⟩
        ⟨fun n => 2 * n, fun _ _ p _ => p, 100⟩ ⟨0, []⟩ 999 =
       (999, ⟨[some ⟨some ⟨3, 3, 3, 3, 11, 5, false⟩⟩], 20⟩,
        ⟨fun n => 2 * n, fun _ _ p _ => p, 100⟩, ⟨0, []⟩)) ∧
    ((findOffscreen (⟨[some ⟨some ⟨3, 3, 3, 3, 11, 5, false⟩⟩], 20⟩ : OffscreenAPI).slots 11 =
        some (0, ⟨some ⟨3, 3, 3, 3, 11, 5, false⟩⟩) ∧
      (⟨some ⟨3, 3, 3, 3, 11, 5, false⟩⟩ : Fl_Image_Surface).platform_surface =
        some ⟨3, 3, 3, 3, 11, 5, false⟩) ∧
     fl_rescale_offscreen ⟨[some ⟨some ⟨3, 3, 3, 3, 11, 5, false⟩⟩], 20⟩
        ⟨fun n => 2 * n, fun _ _ p _ => p, 100⟩ ⟨0, []⟩ 11 =
       (100, ⟨[some ⟨some ⟨3, 3, 6, 6, 100, 5, false⟩⟩], 20⟩,
        ⟨fun n => 2 * n, fun _ _ p _ => p, 101⟩, ⟨0, []⟩)) :=
  ⟨⟨by decide,
    (fl_rescale_offscreen_writes_back_handle ⟨[some ⟨some ⟨3, 3, 3, 3, 11, 5, false⟩⟩], 20⟩
        ⟨fun n => 2 * n, fun _ _ p _ => p, 100⟩ ⟨0, []⟩ 999).1 (by decide)⟩,
   ⟨⟨by decide, rfl⟩,
    (fl_rescale_offscreen_writes_back_handle ⟨[some ⟨some ⟨3, 3, 3, 3, 11, 5, false⟩⟩], 20⟩
        ⟨fun n => 2 * n, fun _ _ p _ => p, 100⟩ ⟨0, []⟩ 11).2 0
      ⟨some ⟨3, 3, 3, 3, 11, 5, false⟩⟩ ⟨3, 3, 3, 3, 11, 5, false⟩ (by decide) rfl⟩⟩
